import Mathlib

/- Shallow embedding of src/vision_mcp.py: a single-camera MCP server offering
   open / status / capture / burst / close operations over one global camera
   handle.  External effects (the OpenCV device, the filesystem, the clocks)
   are modelled by an explicit environment `Env` and an explicit world state
   `World`; a Python exception that escapes a tool function is modelled by
   `PyResult.raised`. -/

namespace VisionMCP

/-- An opaque camera frame as delivered by cap.read(). -/
structure Frame where
  data : Nat
deriving DecidableEq, Repr

/-- Encoded image bytes (their contents are irrelevant to the properties here). -/
abbrev Bytes := List Nat

/-- A cv2.VideoCapture handle: its identity and whether isOpened() holds. -/
structure Cap where
  id : Nat
  opened : Bool
deriving DecidableEq, Repr

/-- The properties read back after opening (the _CAM props dict). -/
structure Props where
  width : Int
  height : Int
  fps : ℚ
  backend : String
deriving DecidableEq, Repr

/-- The global _CAM dict: cap, index, props (props absent models the empty dict). -/
structure CamState where
  cap : Option Cap
  index : Option Int
  props : Option Props
deriving DecidableEq, Repr

/-- The world outside the program: how many cap.read() calls happened, the
    monotonic clock, the instants at which each cap.read() was issued, the
    directories created and the files written, in order. -/
structure World where
  reads : Nat
  clock : ℚ
  readTimes : List ℚ
  dirs : List String
  files : List String
deriving DecidableEq, Repr

/-- Behaviour of the external collaborators (OpenCV and the OS):
    cv2.VideoCapture, the per-backend cv2.CAP_* constants (None when absent on
    the platform), the property read-backs, the outcome and duration of each
    cap.read(), cv2.imencode, mkdir and file-write success, OS error text,
    os.path.expanduser, and the strftime timestamp text as a function of the
    wall clock. -/
structure Env where
  openCap : Int → Option Int → Option Cap
  backendConst : String → Option Int
  actualWidth : Cap → Int
  actualHeight : Cap → Int
  actualFps : Cap → ℚ
  readFrame : Nat → Option Frame
  readDur : Nat → ℚ
  encodeOk : Frame → String → Bool
  encodeBytes : Frame → String → Bytes
  mkdirOk : String → Bool
  writeOk : String → Bool
  osErr : String → String
  expanduser : String → String
  stamp : ℚ → String

/-- Result of a tool call: either a returned value, or a Python exception that
    escaped past the function boundary. -/
inductive PyResult (α : Type) where
  | ok (r : α)
  | raised (e : String)
deriving DecidableEq, Repr

/-- Python str.lower (ASCII-faithful model): lower every character. -/
def pyLower (s : String) : String := String.mk (s.data.map Char.toLower)

/-- Python str.strip (whitespace-trimming model): drop leading and trailing
    whitespace characters. -/
def pyStrip (s : String) : String :=
  String.mk (((s.data.dropWhile Char.isWhitespace).reverse.dropWhile
    Char.isWhitespace).reverse)

/-- Python f-string {i:02d}: decimal, zero-padded to a minimum width of 2. -/
def pad2 (i : Nat) : String := if i < 10 then "0" ++ toString i else toString i

/-- The extension string the burst and encoder compute from the format. -/
def extOf (fmt : String) : String := if pyLower fmt = "jpg" then ".jpg" else ".png"

/-- Python int(round(q)) on a real quotient: round half to even. -/
def roundHalfEven (q : ℚ) : Int :=
  if Int.fract q < 1 / 2 then ⌊q⌋
  else if 1 / 2 < Int.fract q then ⌊q⌋ + 1
  else if ⌊q⌋ % 2 = 0 then ⌊q⌋ else ⌊q⌋ + 1

/-- The _BACKENDS dict: auto maps to None; the four named backends map to the
    platform value of getattr(cv2, CAP_*, None); anything else is absent. -/
def _BACKENDS (env : Env) (key : String) : Option (Option Int) :=
  if key = "auto" then some none
  else if key = "avfoundation" then some (env.backendConst key)
  else if key = "msmf" then some (env.backendConst key)
  else if key = "dshow" then some (env.backendConst key)
  else if key = "v4l2" then some (env.backendConst key)
  else none

/-- _open_cam: no-op if a handle is already open; otherwise normalize the
    backend name, look up the API preference (falling back to None), open the
    device, and on success record the read-back properties. -/
def _open_cam (env : Env) (camera_index width height fps : Int) (backend : String)
    (s : CamState) : (Bool × String) × CamState :=
  if s.cap.isSome then ((true, "Camera already open"), s)
  else
    let be := if backend = "" then "auto" else pyStrip (pyLower backend)
    let api_pref := (_BACKENDS env be).getD none
    match env.openCap camera_index api_pref with
    | none =>
        ((false, "Failed to open camera index " ++ toString camera_index
            ++ " (backend=" ++ be ++ ")"), s)
    | some cap =>
        if cap.opened = false then
          ((false, "Failed to open camera index " ++ toString camera_index
              ++ " (backend=" ++ be ++ ")"), s)
        else
          let actual : Props :=
            { width := env.actualWidth cap, height := env.actualHeight cap,
              fps := env.actualFps cap, backend := be }
          ((true, "Camera opened"),
           { cap := some cap, index := some camera_index, props := some actual })

/-- Shape of the vision_start return dict. -/
structure StartResult where
  ok : Bool
  message : String
  props : Option Props
  index : Option Int
deriving DecidableEq, Repr

/-- vision_start tool: call _open_cam and report the (possibly new) session. -/
def vision_start (env : Env) (camera_index width height fps : Int) (backend : String)
    (s : CamState) : StartResult × CamState :=
  match _open_cam env camera_index width height fps backend s with
  | ((ok, msg), s') =>
      ({ ok := ok, message := msg, props := s'.props, index := s'.index }, s')

/-- _close_cam: release the handle (release errors ignored) and clear state. -/
def _close_cam (_s : CamState) : CamState :=
  { cap := none, index := none, props := none }

/-- vision_stop tool. -/
def vision_stop (s : CamState) : Bool × CamState := (true, _close_cam s)

/-- One cap.read() call on the device: consume the next read outcome from the
    environment, record the instant, advance the clock by the read duration. -/
def capRead (env : Env) (w : World) : Option Frame × World :=
  (env.readFrame w.reads,
   { w with reads := w.reads + 1,
            readTimes := w.readTimes ++ [w.clock],
            clock := w.clock + env.readDur w.reads })

/-- _grab_frame: fail when no handle is open or it is not opened; otherwise a
    single cap.read(), failing when it yields no frame. -/
def _grab_frame (env : Env) (s : CamState) (w : World) :
    (Bool × Option Frame × String) × World :=
  match s.cap with
  | none => ((false, none, "Camera not open"), w)
  | some cap =>
      if cap.opened = false then ((false, none, "Camera not open"), w)
      else
        match capRead env w with
        | (none, w') => ((false, none, "Failed to read frame"), w')
        | (some frame, w') => ((true, some frame, "ok"), w')

/-- _encode_image: jpg extension only when fmt.lower() == jpg, else png; on
    encoder failure the third component carries the error text instead. -/
def _encode_image (env : Env) (frame : Frame) (fmt : String) : Bool × Bytes × String :=
  let ext := extOf fmt
  if env.encodeOk frame ext then (true, env.encodeBytes frame ext, ext)
  else (false, [], "cv2.imencode failed")

/-- _timestamp_name: prefix_YYYYMMDD_HHMMSS_mmm plus extension (the timestamp
    and millisecond text is the environment's stamp of the current clock). -/
def _timestamp_name (env : Env) (clock : ℚ) (pfx ext : String) : String :=
  pfx ++ "_" ++ env.stamp clock ++ ext

/-- Width from the props dict, defaulting to 0 (int(props.get(width, 0))). -/
def propWidth (s : CamState) : Int :=
  match s.props with
  | none => 0
  | some p => p.width

/-- Height from the props dict, defaulting to 0. -/
def propHeight (s : CamState) : Int :=
  match s.props with
  | none => 0
  | some p => p.height

/-- Shape of the vision_capture return dict. -/
inductive CaptureResult where
  | err (error : String)
  | success (path mime : String) (width height : Int)
deriving DecidableEq, Repr

/-- vision_capture tool: grab one frame, encode it, ensure the directory
    (an mkdir failure raises: it is outside the try block), write the file
    (a write failure is caught and reported), return path and metadata. -/
def vision_capture (env : Env) (save_dir fmt : String) (s : CamState) (w : World) :
    PyResult CaptureResult × World :=
  match _grab_frame env s w with
  | ((false, _, msg), w1) => (PyResult.ok (CaptureResult.err msg), w1)
  | ((true, none, msg), w1) => (PyResult.ok (CaptureResult.err msg), w1)
  | ((true, some frame, _), w1) =>
      match _encode_image env frame fmt with
      | (false, _, emsg) => (PyResult.ok (CaptureResult.err emsg), w1)
      | (true, _, ext) =>
          let out_dir := env.expanduser save_dir
          if env.mkdirOk out_dir = false then
            (PyResult.raised ("OSError: " ++ env.osErr out_dir), w1)
          else
            let w2 := { w1 with dirs := w1.dirs ++ [out_dir] }
            let fname := _timestamp_name env w2.clock ("frame") ext
            let fpath := out_dir ++ "/" ++ fname
            if env.writeOk fpath = false then
              (PyResult.ok (CaptureResult.err ("Failed to write file: " ++ env.osErr fpath)), w2)
            else
              (PyResult.ok (CaptureResult.success fpath
                  (if ext = ".jpg" then "image/jpeg" else "image/png")
                  (propWidth s) (propHeight s)),
               { w2 with files := w2.files ++ [fpath] })

/-- The wait step at the top of a burst iteration: target = t0 + i * period_s;
    sleep until the target only when it is still in the future. -/
def afterWait (t0 period_s : ℚ) (i : Nat) (w : World) : World :=
  let target := t0 + (i : ℚ) * period_s
  if w.clock < target then { w with clock := target } else w

/-- The warmup loop: read and drop that many frames, ignoring their outcome. -/
def warmupReads (env : Env) : Nat → World → World
  | 0, w => w
  | k + 1, w => warmupReads env k (capRead env w).2

/-- Outcome of the burst loop proper. -/
inductive LoopOut where
  | failed (error : String) (paths : List String)
  | finished (paths : List String)
deriving DecidableEq, Repr

/-- The burst capture loop over the remaining frame indices: wait for the
    schedule, grab (read failure aborts, keeping the paths written so far),
    encode (failure likewise aborts), name the file asl_stamp_index with the
    extension, write it (a write failure raises: the write has no try block),
    record the path, continue. -/
def burstLoop (env : Env) (s : CamState) (fmt ext out_dir : String) (t0 period_s : ℚ) :
    List Nat → World → List String → PyResult LoopOut × World
  | [], w, paths => (PyResult.ok (LoopOut.finished paths), w)
  | i :: rest, w, paths =>
      match _grab_frame env s (afterWait t0 period_s i w) with
      | ((false, _, msg), w2) =>
          (PyResult.ok (LoopOut.failed ("Failed to read frame: " ++ msg) paths), w2)
      | ((true, none, msg), w2) =>
          (PyResult.ok (LoopOut.failed ("Failed to read frame: " ++ msg) paths), w2)
      | ((true, some frame, _), w2) =>
          match _encode_image env frame fmt with
          | (false, _, _) => (PyResult.ok (LoopOut.failed ("cv2.imencode failed") paths), w2)
          | (true, _, _) =>
              let fname := "asl_" ++ env.stamp w2.clock ++ "_" ++ pad2 i ++ ext
              let fpath := out_dir ++ "/" ++ fname
              if env.writeOk fpath = false then
                (PyResult.raised ("OSError: " ++ env.osErr fpath), w2)
              else
                burstLoop env s fmt ext out_dir t0 period_s rest
                  { w2 with files := w2.files ++ [fpath] } (paths ++ [fpath])

/-- Shape of the successful vision_burst return dict. -/
structure BurstOk where
  paths : List String
  mime : String
  width : Int
  height : Int
  n : Nat
  period_ms : Int
  duration_ms : Int
  save_dir : String
deriving DecidableEq, Repr

/-- Shape of the vision_burst return dict: failure before the loop carries no
    paths key; failure inside the loop carries the paths written so far. -/
inductive BurstResult where
  | errNoPaths (error : String)
  | errPaths (error : String) (paths : List String)
  | done (r : BurstOk)
deriving DecidableEq, Repr

/-- vision_burst after the effective count has been settled: buffer-size set
    (no observable effect), warmup reads, mkdir (a failure raises: no try
    block), extension and mime from the format, schedule anchored at t0, loop. -/
def vision_burst_rest (env : Env) (nv period_ms : Int) (save_dir fmt : String)
    (warmup duration_ms : Int) (s : CamState) (w : World) : PyResult BurstResult × World :=
  let w1 := warmupReads env (Int.toNat (max 0 warmup)) w
  let out_dir := env.expanduser save_dir
  if env.mkdirOk out_dir = false then
    (PyResult.raised ("OSError: " ++ env.osErr out_dir), w1)
  else
    let w2 := { w1 with dirs := w1.dirs ++ [out_dir] }
    let ext := extOf fmt
    let mime := if ext = ".jpg" then "image/jpeg" else "image/png"
    let period_s := max 0 ((period_ms : ℚ) / 1000)
    let t0 := w2.clock
    match burstLoop env s fmt ext out_dir t0 period_s
        (List.range (Int.toNat (max 1 nv))) w2 [] with
    | (PyResult.raised e, w') => (PyResult.raised e, w')
    | (PyResult.ok (LoopOut.failed e ps), w') =>
        (PyResult.ok (BurstResult.errPaths e ps), w')
    | (PyResult.ok (LoopOut.finished ps), w') =>
        (PyResult.ok (BurstResult.done
            { paths := ps, mime := mime, width := propWidth s, height := propHeight s,
              n := ps.length, period_ms := period_ms, duration_ms := duration_ms,
              save_dir := out_dir }), w')

/-- vision_burst tool: refuse when the camera is not open; when duration_ms is
    truthy and positive recompute the count as max(1, int(round(duration_ms /
    period_ms))) - a float division that raises ZeroDivisionError when
    period_ms is 0 - then run the rest of the burst. -/
def vision_burst (env : Env) (n period_ms : Int) (save_dir fmt : String)
    (warmup duration_ms : Int) (s : CamState) (w : World) : PyResult BurstResult × World :=
  match s.cap with
  | none => (PyResult.ok (BurstResult.errNoPaths ("Camera not open")), w)
  | some cap =>
      if cap.opened = false then
        (PyResult.ok (BurstResult.errNoPaths ("Camera not open")), w)
      else
        if duration_ms ≠ 0 ∧ duration_ms > 0 then
          if period_ms = 0 then (PyResult.raised ("ZeroDivisionError"), w)
          else
            vision_burst_rest env
              (max 1 (roundHalfEven ((duration_ms : ℚ) / (period_ms : ℚ))))
              period_ms save_dir fmt warmup duration_ms s w
        else
          vision_burst_rest env n period_ms save_dir fmt warmup duration_ms s w

/-- The paths list of a burst result (absent key modelled as the empty list). -/
def BurstResult.pathList : BurstResult → List String
  | BurstResult.errNoPaths _ => []
  | BurstResult.errPaths _ ps => ps
  | BurstResult.done r => r.paths

/-- The paths of a non-raised burst result. -/
def okPaths : PyResult BurstResult → List String
  | PyResult.ok r => r.pathList
  | PyResult.raised _ => []

/-- The paths carried by a burst loop outcome. -/
def LoopOut.pathsOf : LoopOut → List String
  | LoopOut.failed _ ps => ps
  | LoopOut.finished ps => ps

/-- The fixed-rate capture schedule the spec describes: the first read at t0,
    and each next read at the later of (previous read plus the read duration)
    and the fixed target t0 + i * per. -/
def sched (t0 per d : ℚ) : Nat → ℚ
  | 0 => t0
  | i + 1 => max (sched t0 per d i + d) (t0 + ((i : ℚ) + 1) * per)

/-- The clock right before iteration i's wait, when the loop starts at c0 with
    absolute frame index a and constant read duration d. -/
def preClock (t0 ps d : ℚ) (a : Nat) (c0 : ℚ) : Nat → ℚ
  | 0 => c0
  | j + 1 => max (preClock t0 ps d a c0 j) (t0 + ((a + j : Nat) : ℚ) * ps) + d

/-- The initial world: no reads yet, clock at zero, nothing on disk. -/
def w0 : World := { reads := 0, clock := 0, readTimes := [], dirs := [], files := [] }

/-- A session with an open camera, as left by a successful vision_start. -/
def sOpenG : CamState :=
  { cap := some { id := 0, opened := true }, index := some 0,
    props := some { width := 640, height := 480, fps := 15, backend := "auto" } }

/-- A closed session (the initial _CAM dict). -/
def sClosed : CamState := { cap := none, index := none, props := none }

/-- A fully cooperative external world: every open, read, encode, mkdir and
    write succeeds, reads are instantaneous, the timestamp text is T. -/
def goodEnv : Env :=
  { openCap := fun _ _ => some { id := 0, opened := true },
    backendConst := fun _ => none,
    actualWidth := fun _ => 640,
    actualHeight := fun _ => 480,
    actualFps := fun _ => 15,
    readFrame := fun k => some { data := k },
    readDur := fun _ => 0,
    encodeOk := fun _ _ => true,
    encodeBytes := fun _ _ => [],
    mkdirOk := fun _ => true,
    writeOk := fun _ => true,
    osErr := fun _ => "E",
    expanduser := fun p => p,
    stamp := fun _ => "T" }

/-- Like goodEnv but every directory creation fails. -/
def badMkEnv : Env := { goodEnv with mkdirOk := fun _ => false }

/-- Like goodEnv but every file write fails. -/
def badWrEnv : Env := { goodEnv with writeOk := fun _ => false }

/-- Like goodEnv but the third and later reads fail. -/
def failAt2Env : Env :=
  { goodEnv with readFrame := fun k => if k < 2 then some { data := k } else none }

/-- Like goodEnv but no camera can be opened. -/
def noOpenEnv : Env := { goodEnv with openCap := fun _ _ => none }

/-- The effective loop count of a burst, as an Int before the final max(1, n). -/
def effN (n period_ms duration_ms : Int) : Int :=
  if duration_ms ≠ 0 ∧ duration_ms > 0 then
    max 1 (roundHalfEven ((duration_ms : ℚ) / (period_ms : ℚ)))
  else n

/-- The world after the wait and the cap.read() of burst iteration i. -/
def readWorld (env : Env) (t0 ps : ℚ) (i : Nat) (w : World) : World :=
  let w1 := afterWait t0 ps i w
  { w1 with reads := w1.reads + 1,
            readTimes := w1.readTimes ++ [w1.clock],
            clock := w1.clock + env.readDur w1.reads }

/-- The file path burst iteration i writes, for a world w at iteration entry. -/
def stepPath (env : Env) (dir ext : String) (t0 ps : ℚ) (i : Nat) (w : World) : String :=
  dir ++ "/" ++ ("asl_" ++ env.stamp (readWorld env t0 ps i w).clock ++ "_" ++ pad2 i ++ ext)

/-- The world after a whole successful burst iteration i. -/
def stepWorld (env : Env) (dir ext : String) (t0 ps : ℚ) (i : Nat) (w : World) : World :=
  let w2 := readWorld env t0 ps i w
  { w2 with files := w2.files ++ [stepPath env dir ext t0 ps i w] }

section Lemmas

theorem afterWait_reads (t0 ps : ℚ) (i : Nat) (w : World) :
    (afterWait t0 ps i w).reads = w.reads := by
  simp only [afterWait]; split <;> rfl

theorem afterWait_files (t0 ps : ℚ) (i : Nat) (w : World) :
    (afterWait t0 ps i w).files = w.files := by
  simp only [afterWait]; split <;> rfl

theorem afterWait_dirs (t0 ps : ℚ) (i : Nat) (w : World) :
    (afterWait t0 ps i w).dirs = w.dirs := by
  simp only [afterWait]; split <;> rfl

theorem afterWait_readTimes (t0 ps : ℚ) (i : Nat) (w : World) :
    (afterWait t0 ps i w).readTimes = w.readTimes := by
  simp only [afterWait]; split <;> rfl

theorem afterWait_clock (t0 ps : ℚ) (i : Nat) (w : World) :
    (afterWait t0 ps i w).clock = max w.clock (t0 + (i : ℚ) * ps) := by
  simp only [afterWait]
  rcases lt_or_ge w.clock (t0 + (i : ℚ) * ps) with h | h
  · simp [h, max_eq_right h.le]
  · simp [not_lt.mpr h, max_eq_left h]

theorem grab_open (env : Env) (s : CamState) (c : Cap) (w : World)
    (hs : s.cap = some c) (hc : c.opened = true) :
    _grab_frame env s w =
      match env.readFrame w.reads with
      | none => ((false, none, "Failed to read frame"),
          { w with reads := w.reads + 1, readTimes := w.readTimes ++ [w.clock],
                   clock := w.clock + env.readDur w.reads })
      | some frame => ((true, some frame, "ok"),
          { w with reads := w.reads + 1, readTimes := w.readTimes ++ [w.clock],
                   clock := w.clock + env.readDur w.reads }) := by
  simp only [_grab_frame, hs, hc, capRead]
  cases h : env.readFrame w.reads <;> simp [h]

theorem warmupReads_shape (env : Env) :
    ∀ (k : Nat) (w : World),
    (warmupReads env k w).reads = w.reads + k
    ∧ (warmupReads env k w).files = w.files
    ∧ (warmupReads env k w).dirs = w.dirs := by
  intro k
  induction k with
  | zero => intro w; simp [warmupReads]
  | succ m ih =>
      intro w
      simp only [warmupReads, capRead]
      obtain ⟨h1, h2, h3⟩ := ih ((capRead env w).2)
      simp only [capRead] at h1 h2 h3
      refine ⟨?_, ?_, ?_⟩ <;> simp_all <;> omega

theorem readWorld_reads (env : Env) (t0 ps : ℚ) (i : Nat) (w : World) :
    (readWorld env t0 ps i w).reads = w.reads + 1 := by
  simp [readWorld, afterWait_reads]

theorem readWorld_files (env : Env) (t0 ps : ℚ) (i : Nat) (w : World) :
    (readWorld env t0 ps i w).files = w.files := by
  simp [readWorld, afterWait_files]

theorem readWorld_dirs (env : Env) (t0 ps : ℚ) (i : Nat) (w : World) :
    (readWorld env t0 ps i w).dirs = w.dirs := by
  simp [readWorld, afterWait_dirs]

theorem readWorld_clock (env : Env) (t0 ps : ℚ) (i : Nat) (w : World) :
    (readWorld env t0 ps i w).clock
      = max w.clock (t0 + (i : ℚ) * ps) + env.readDur w.reads := by
  simp [readWorld, afterWait_clock, afterWait_reads]

theorem readWorld_readTimes (env : Env) (t0 ps : ℚ) (i : Nat) (w : World) :
    (readWorld env t0 ps i w).readTimes
      = w.readTimes ++ [max w.clock (t0 + (i : ℚ) * ps)] := by
  simp [readWorld, afterWait_readTimes, afterWait_clock]

theorem stepWorld_reads (env : Env) (dir ext : String) (t0 ps : ℚ) (i : Nat) (w : World) :
    (stepWorld env dir ext t0 ps i w).reads = w.reads + 1 := by
  simp [stepWorld, readWorld_reads]

theorem stepWorld_files (env : Env) (dir ext : String) (t0 ps : ℚ) (i : Nat) (w : World) :
    (stepWorld env dir ext t0 ps i w).files
      = w.files ++ [stepPath env dir ext t0 ps i w] := by
  simp [stepWorld, readWorld_files]

theorem stepWorld_dirs (env : Env) (dir ext : String) (t0 ps : ℚ) (i : Nat) (w : World) :
    (stepWorld env dir ext t0 ps i w).dirs = w.dirs := by
  simp [stepWorld, readWorld_dirs]

theorem stepWorld_clock (env : Env) (dir ext : String) (t0 ps : ℚ) (i : Nat) (w : World) :
    (stepWorld env dir ext t0 ps i w).clock
      = max w.clock (t0 + (i : ℚ) * ps) + env.readDur w.reads := by
  simp [stepWorld, readWorld_clock]

theorem stepWorld_readTimes (env : Env) (dir ext : String) (t0 ps : ℚ) (i : Nat) (w : World) :
    (stepWorld env dir ext t0 ps i w).readTimes
      = w.readTimes ++ [max w.clock (t0 + (i : ℚ) * ps)] := by
  simp [stepWorld, readWorld_readTimes]

theorem burstLoop_cons_good (env : Env) (s : CamState) (c : Cap) (fmt ext dir : String)
    (t0 ps : ℚ) (hs : s.cap = some c) (hc : c.opened = true)
    (i : Nat) (rest : List Nat) (w : World) (paths : List String) (f : Frame)
    (hf : env.readFrame w.reads = some f) (he : env.encodeOk f (extOf fmt) = true)
    (hw : env.writeOk (stepPath env dir ext t0 ps i w) = true) :
    burstLoop env s fmt ext dir t0 ps (i :: rest) w paths
      = burstLoop env s fmt ext dir t0 ps rest (stepWorld env dir ext t0 ps i w)
          (paths ++ [stepPath env dir ext t0 ps i w]) := by
  simp only [burstLoop]
  rw [grab_open env s c _ hs hc, afterWait_reads, hf]
  simp only [_encode_image, he, if_true]
  simp only [stepPath, readWorld, stepWorld, afterWait_reads] at hw ⊢
  simp [hw]

theorem burstLoop_cons_read_fail (env : Env) (s : CamState) (c : Cap) (fmt ext dir : String)
    (t0 ps : ℚ) (hs : s.cap = some c) (hc : c.opened = true)
    (i : Nat) (rest : List Nat) (w : World) (paths : List String)
    (hf : env.readFrame w.reads = none) :
    burstLoop env s fmt ext dir t0 ps (i :: rest) w paths
      = (PyResult.ok (LoopOut.failed ("Failed to read frame: Failed to read frame") paths),
         readWorld env t0 ps i w) := by
  simp only [burstLoop]
  rw [grab_open env s c _ hs hc, afterWait_reads, hf]
  simp [readWorld, afterWait_reads]

theorem burstLoop_cons_encode_fail (env : Env) (s : CamState) (c : Cap) (fmt ext dir : String)
    (t0 ps : ℚ) (hs : s.cap = some c) (hc : c.opened = true)
    (i : Nat) (rest : List Nat) (w : World) (paths : List String) (f : Frame)
    (hf : env.readFrame w.reads = some f) (he : env.encodeOk f (extOf fmt) = false) :
    burstLoop env s fmt ext dir t0 ps (i :: rest) w paths
      = (PyResult.ok (LoopOut.failed ("cv2.imencode failed") paths),
         readWorld env t0 ps i w) := by
  simp only [burstLoop]
  rw [grab_open env s c _ hs hc, afterWait_reads, hf]
  simp only [_encode_image, he]
  simp [readWorld, afterWait_reads]

theorem burstLoop_cons_write_fail (env : Env) (s : CamState) (c : Cap) (fmt ext dir : String)
    (t0 ps : ℚ) (hs : s.cap = some c) (hc : c.opened = true)
    (i : Nat) (rest : List Nat) (w : World) (paths : List String) (f : Frame)
    (hf : env.readFrame w.reads = some f) (he : env.encodeOk f (extOf fmt) = true)
    (hw : env.writeOk (stepPath env dir ext t0 ps i w) = false) :
    burstLoop env s fmt ext dir t0 ps (i :: rest) w paths
      = (PyResult.raised ("OSError: " ++ env.osErr (stepPath env dir ext t0 ps i w)),
         readWorld env t0 ps i w) := by
  simp only [burstLoop]
  rw [grab_open env s c _ hs hc, afterWait_reads, hf]
  simp only [_encode_image, he, if_true]
  simp only [stepPath, readWorld, stepWorld, afterWait_reads] at hw ⊢
  simp [hw]

theorem burstLoop_good (env : Env) (s : CamState) (c : Cap) (fmt ext dir : String)
    (t0 ps : ℚ) (hs : s.cap = some c) (hc : c.opened = true)
    (hwr : ∀ p, env.writeOk p = true) :
    ∀ (k a : Nat) (w : World) (paths : List String),
    (∀ j, j < k → ∃ f, env.readFrame (w.reads + j) = some f
        ∧ env.encodeOk f (extOf fmt) = true) →
    ∃ (new : List String) (w' : World),
      burstLoop env s fmt ext dir t0 ps (List.range' a k) w paths
        = (PyResult.ok (LoopOut.finished (paths ++ new)), w')
      ∧ new.length = k
      ∧ w'.files = w.files ++ new
      ∧ w'.dirs = w.dirs
      ∧ w'.reads = w.reads + k
      ∧ (∀ j, j < k → ∃ q, new.getD j ("")
          = dir ++ "/" ++ ("asl_" ++ q ++ "_" ++ pad2 (a + j) ++ ext)) := by
  intro k
  induction k with
  | zero =>
      intro a w paths _
      refine ⟨[], w, by simp [burstLoop], rfl, by simp, rfl, by simp, ?_⟩
      intro j hj
      exact absurd hj (Nat.not_lt_zero j)
  | succ m ih =>
      intro a w paths hg
      obtain ⟨f0, hf0, he0⟩ := hg 0 m.succ_pos
      rw [Nat.add_zero] at hf0
      rw [List.range'_succ,
        burstLoop_cons_good env s c fmt ext dir t0 ps hs hc a _ w paths f0 hf0 he0 (hwr _)]
      have hg' : ∀ j, j < m →
          ∃ f, env.readFrame ((stepWorld env dir ext t0 ps a w).reads + j) = some f
            ∧ env.encodeOk f (extOf fmt) = true := by
        intro j hj
        obtain ⟨f, hf, he⟩ := hg (j + 1) (by omega)
        refine ⟨f, ?_, he⟩
        rw [stepWorld_reads, show w.reads + 1 + j = w.reads + (j + 1) from by omega]
        exact hf
      obtain ⟨new', w', heq, hlen, hfiles, hdirs, hreads, hnames⟩ :=
        ih (a + 1) _ (paths ++ [stepPath env dir ext t0 ps a w]) hg'
      refine ⟨stepPath env dir ext t0 ps a w :: new', w', ?_, by simp [hlen], ?_, ?_, ?_, ?_⟩
      · rw [heq]; simp
      · rw [hfiles, stepWorld_files]; simp
      · rw [hdirs, stepWorld_dirs]
      · rw [hreads, stepWorld_reads]; omega
      · intro j hj
        cases j with
        | zero =>
            refine ⟨env.stamp (readWorld env t0 ps a w).clock, ?_⟩
            simp [stepPath]
        | succ jm =>
            obtain ⟨q, hq⟩ := hnames jm (by omega)
            refine ⟨q, ?_⟩
            rw [List.getD_cons_succ, hq, show a + 1 + jm = a + (jm + 1) from by omega]

theorem burstLoop_append (env : Env) (s : CamState) (fmt ext dir : String) (t0 ps : ℚ) :
    ∀ (l1 l2 : List Nat) (w : World) (paths : List String),
    burstLoop env s fmt ext dir t0 ps (l1 ++ l2) w paths =
      match burstLoop env s fmt ext dir t0 ps l1 w paths with
      | (PyResult.ok (LoopOut.finished qs), w') =>
          burstLoop env s fmt ext dir t0 ps l2 w' qs
      | other => other := by
  intro l1
  induction l1 with
  | nil => intro l2 w paths; simp [burstLoop]
  | cons i t ih =>
      intro l2 w paths
      simp only [List.cons_append, burstLoop]
      rcases hg : _grab_frame env s (afterWait t0 ps i w) with ⟨⟨(_|_), (_|f), msg⟩, w2⟩
      · simp [hg]
      · simp [hg]
      · simp [hg]
      · simp only [hg]
        rcases he : _encode_image env f fmt with ⟨(_|_), bts, e3⟩
        · simp [he]
        · simp only [he]
          by_cases hw : env.writeOk (dir ++ "/" ++
              ("asl_" ++ env.stamp w2.clock ++ "_" ++ pad2 i ++ ext)) = false
          · simp [hw]
          · rw [Bool.not_eq_false] at hw
            simp [hw, ih]

theorem vision_burst_eq_rest (env : Env) (n pms : Int) (dir fmt : String) (wm dm : Int)
    (s : CamState) (w : World) (c : Cap)
    (hs : s.cap = some c) (hc : c.opened = true) (hdp : dm > 0 → pms ≠ 0) :
    vision_burst env n pms dir fmt wm dm s w
      = vision_burst_rest env (effN n pms dm) pms dir fmt wm dm s w := by
  simp only [vision_burst, hs, hc, effN]
  by_cases hdm : dm ≠ 0 ∧ dm > 0
  · have hp : ¬ pms = 0 := hdp hdm.2
    simp [hdm, hp]
  · simp [hdm]

theorem burst_good_run (env : Env) (n pms : Int) (dir fmt : String) (wm dm : Int)
    (s : CamState) (w : World) (c : Cap)
    (hs : s.cap = some c) (hc : c.opened = true) (hdp : dm > 0 → pms ≠ 0)
    (hrd : ∀ k, (env.readFrame k).isSome = true)
    (hen : ∀ f e, env.encodeOk f e = true)
    (hmk : env.mkdirOk (env.expanduser dir) = true)
    (hwr : ∀ p, env.writeOk p = true) :
    ∃ r w',
      vision_burst env n pms dir fmt wm dm s w = (PyResult.ok (BurstResult.done r), w')
      ∧ r.paths.length = Int.toNat (max 1 (effN n pms dm))
      ∧ r.n = r.paths.length
      ∧ r.mime = (if extOf fmt = ".jpg" then "image/jpeg" else "image/png")
      ∧ r.save_dir = env.expanduser dir
      ∧ r.period_ms = pms
      ∧ r.duration_ms = dm
      ∧ w'.files = w.files ++ r.paths
      ∧ w'.dirs = w.dirs ++ [env.expanduser dir]
      ∧ (∀ j, j < r.paths.length → ∃ q, r.paths.getD j ("")
          = env.expanduser dir ++ "/" ++ ("asl_" ++ q ++ "_" ++ pad2 j ++ extOf fmt)) := by
  rw [vision_burst_eq_rest env n pms dir fmt wm dm s w c hs hc hdp]
  simp only [vision_burst_rest, hmk]
  obtain ⟨hw1r, hw1f, hw1d⟩ := warmupReads_shape env (Int.toNat (max 0 wm)) w
  rw [List.range_eq_range']
  obtain ⟨new, w', heq, hlen, hfiles, hdirs, hreads, hnames⟩ :=
    burstLoop_good env s c fmt (extOf fmt) (env.expanduser dir)
      (warmupReads env (Int.toNat (max 0 wm)) w).clock (max 0 ((pms : ℚ) / 1000)) hs hc hwr
      (Int.toNat (max 1 (effN n pms dm))) 0
      { warmupReads env (Int.toNat (max 0 wm)) w with
        dirs := (warmupReads env (Int.toNat (max 0 wm)) w).dirs ++ [env.expanduser dir] }
      []
      (by
        intro j hj
        obtain ⟨f, hf⟩ := Option.isSome_iff_exists.mp (hrd
          ((warmupReads env (Int.toNat (max 0 wm)) w).reads + j))
        exact ⟨f, hf, hen f (extOf fmt)⟩)
  rw [heq]
  refine ⟨_, w', rfl, by simpa using hlen, by simp, rfl, rfl, rfl, rfl, ?_, ?_, ?_⟩
  · simp only [hfiles]
    simp [hw1f]
  · simp only [hdirs]
    simp [hw1d]
  · intro j hj
    obtain ⟨q, hq⟩ := hnames j (by simpa using by simpa [hlen] using hj)
    exact ⟨q, by simpa using hq⟩

theorem burst_read_fail_run (env : Env) (n pms : Int) (dir fmt : String) (wm dm : Int)
    (s : CamState) (w : World) (c : Cap) (i : Nat)
    (hs : s.cap = some c) (hc : c.opened = true) (hdp : dm > 0 → pms ≠ 0)
    (hmk : env.mkdirOk (env.expanduser dir) = true)
    (hwr : ∀ p, env.writeOk p = true)
    (hcnt : i < Int.toNat (max 1 (effN n pms dm)))
    (hrd : ∀ j, j < i → ∃ f,
        env.readFrame (w.reads + Int.toNat (max 0 wm) + j) = some f
        ∧ env.encodeOk f (extOf fmt) = true)
    (hfail : env.readFrame (w.reads + Int.toNat (max 0 wm) + i) = none) :
    ∃ (P : List String) (w' : World),
      vision_burst env n pms dir fmt wm dm s w
        = (PyResult.ok (BurstResult.errPaths
            ("Failed to read frame: Failed to read frame") P), w')
      ∧ P.length = i
      ∧ w'.files = w.files ++ P
      ∧ w'.dirs = w.dirs ++ [env.expanduser dir]
      ∧ (∀ j, j < i → ∃ q, P.getD j ("")
          = env.expanduser dir ++ "/" ++ ("asl_" ++ q ++ "_" ++ pad2 j ++ extOf fmt)) := by
  rw [vision_burst_eq_rest env n pms dir fmt wm dm s w c hs hc hdp]
  simp only [vision_burst_rest, hmk]
  obtain ⟨hw1r, hw1f, hw1d⟩ := warmupReads_shape env (Int.toNat (max 0 wm)) w
  rw [List.range_eq_range']
  obtain ⟨new, w2', heq, hlen, hfiles, hdirs, hreads, hnames⟩ :=
    burstLoop_good env s c fmt (extOf fmt) (env.expanduser dir)
      (warmupReads env (Int.toNat (max 0 wm)) w).clock (max 0 ((pms : ℚ) / 1000)) hs hc hwr
      i 0
      { warmupReads env (Int.toNat (max 0 wm)) w with
        dirs := (warmupReads env (Int.toNat (max 0 wm)) w).dirs ++ [env.expanduser dir] }
      []
      (by
        intro j hj
        obtain ⟨f, hf, he⟩ := hrd j hj
        refine ⟨f, ?_, he⟩
        simp only [hw1r] at *
        convert hf using 2)
  have hfailw : env.readFrame w2'.reads = none := by
    rw [hreads]
    simp only [hw1r] at *
    convert hfail using 2
  have hsplit : List.range' 0 (Int.toNat (max 1 (effN n pms dm)))
      = List.range' 0 i ++ List.range' i (Int.toNat (max 1 (effN n pms dm)) - i) := by
    have h := List.range'_append_1 0 i (Int.toNat (max 1 (effN n pms dm)) - i)
    rw [Nat.zero_add, show Int.toNat (max 1 (effN n pms dm)) - i + i
        = Int.toNat (max 1 (effN n pms dm)) from by omega] at h
    exact h.symm
  have hrun : burstLoop env s fmt (extOf fmt) (env.expanduser dir)
      (warmupReads env (Int.toNat (max 0 wm)) w).clock (max 0 ((pms : ℚ) / 1000))
      (List.range' 0 (Int.toNat (max 1 (effN n pms dm))))
      { warmupReads env (Int.toNat (max 0 wm)) w with
        dirs := (warmupReads env (Int.toNat (max 0 wm)) w).dirs ++ [env.expanduser dir] }
      []
      = (PyResult.ok (LoopOut.failed ("Failed to read frame: Failed to read frame")
          ([] ++ new)),
         readWorld env (warmupReads env (Int.toNat (max 0 wm)) w).clock
           (max 0 ((pms : ℚ) / 1000)) i w2') := by
    rw [hsplit, burstLoop_append, heq]
    show burstLoop env s fmt (extOf fmt) (env.expanduser dir) _ _
        (List.range' i (Int.toNat (max 1 (effN n pms dm)) - i)) w2' ([] ++ new) = _
    rw [show Int.toNat (max 1 (effN n pms dm)) - i
        = (Int.toNat (max 1 (effN n pms dm)) - i - 1) + 1 from by omega, List.range'_succ]
    rw [burstLoop_cons_read_fail env s c fmt (extOf fmt) (env.expanduser dir) _ _ hs hc
      i _ w2' ([] ++ new) hfailw]
  rw [hrun]
  refine ⟨[] ++ new, _, rfl, by simpa using hlen, ?_, ?_, ?_⟩
  · rw [readWorld_files, hfiles]
    simp [hw1f]
  · rw [readWorld_dirs, hdirs]
    simp [hw1d]
  · intro j hj
    obtain ⟨q, hq⟩ := hnames j (by omega)
    exact ⟨q, by simpa using hq⟩

theorem burst_encode_fail_run (env : Env) (n pms : Int) (dir fmt : String) (wm dm : Int)
    (s : CamState) (w : World) (c : Cap) (i : Nat) (fi : Frame)
    (hs : s.cap = some c) (hc : c.opened = true) (hdp : dm > 0 → pms ≠ 0)
    (hmk : env.mkdirOk (env.expanduser dir) = true)
    (hwr : ∀ p, env.writeOk p = true)
    (hcnt : i < Int.toNat (max 1 (effN n pms dm)))
    (hrd : ∀ j, j < i → ∃ f,
        env.readFrame (w.reads + Int.toNat (max 0 wm) + j) = some f
        ∧ env.encodeOk f (extOf fmt) = true)
    (hfi : env.readFrame (w.reads + Int.toNat (max 0 wm) + i) = some fi)
    (hei : env.encodeOk fi (extOf fmt) = false) :
    ∃ (P : List String) (w' : World),
      vision_burst env n pms dir fmt wm dm s w
        = (PyResult.ok (BurstResult.errPaths ("cv2.imencode failed") P), w')
      ∧ P.length = i
      ∧ w'.files = w.files ++ P
      ∧ (∀ j, j < i → ∃ q, P.getD j ("")
          = env.expanduser dir ++ "/" ++ ("asl_" ++ q ++ "_" ++ pad2 j ++ extOf fmt)) := by
  rw [vision_burst_eq_rest env n pms dir fmt wm dm s w c hs hc hdp]
  simp only [vision_burst_rest, hmk]
  obtain ⟨hw1r, hw1f, hw1d⟩ := warmupReads_shape env (Int.toNat (max 0 wm)) w
  rw [List.range_eq_range']
  obtain ⟨new, w2', heq, hlen, hfiles, hdirs, hreads, hnames⟩ :=
    burstLoop_good env s c fmt (extOf fmt) (env.expanduser dir)
      (warmupReads env (Int.toNat (max 0 wm)) w).clock (max 0 ((pms : ℚ) / 1000)) hs hc hwr
      i 0
      { warmupReads env (Int.toNat (max 0 wm)) w with
        dirs := (warmupReads env (Int.toNat (max 0 wm)) w).dirs ++ [env.expanduser dir] }
      []
      (by
        intro j hj
        obtain ⟨f, hf, he⟩ := hrd j hj
        refine ⟨f, ?_, he⟩
        simp only [hw1r] at *
        convert hf using 2)
  have hfailw : env.readFrame w2'.reads = some fi := by
    rw [hreads]
    simp only [hw1r] at *
    convert hfi using 2
  have hsplit : List.range' 0 (Int.toNat (max 1 (effN n pms dm)))
      = List.range' 0 i ++ List.range' i (Int.toNat (max 1 (effN n pms dm)) - i) := by
    have h := List.range'_append_1 0 i (Int.toNat (max 1 (effN n pms dm)) - i)
    rw [Nat.zero_add, show Int.toNat (max 1 (effN n pms dm)) - i + i
        = Int.toNat (max 1 (effN n pms dm)) from by omega] at h
    exact h.symm
  have hrun : burstLoop env s fmt (extOf fmt) (env.expanduser dir)
      (warmupReads env (Int.toNat (max 0 wm)) w).clock (max 0 ((pms : ℚ) / 1000))
      (List.range' 0 (Int.toNat (max 1 (effN n pms dm))))
      { warmupReads env (Int.toNat (max 0 wm)) w with
        dirs := (warmupReads env (Int.toNat (max 0 wm)) w).dirs ++ [env.expanduser dir] }
      []
      = (PyResult.ok (LoopOut.failed ("cv2.imencode failed") ([] ++ new)),
         readWorld env (warmupReads env (Int.toNat (max 0 wm)) w).clock
           (max 0 ((pms : ℚ) / 1000)) i w2') := by
    rw [hsplit, burstLoop_append, heq]
    show burstLoop env s fmt (extOf fmt) (env.expanduser dir) _ _
        (List.range' i (Int.toNat (max 1 (effN n pms dm)) - i)) w2' ([] ++ new) = _
    rw [show Int.toNat (max 1 (effN n pms dm)) - i
        = (Int.toNat (max 1 (effN n pms dm)) - i - 1) + 1 from by omega, List.range'_succ]
    rw [burstLoop_cons_encode_fail env s c fmt (extOf fmt) (env.expanduser dir) _ _ hs hc
      i _ w2' ([] ++ new) fi hfailw hei]
  rw [hrun]
  refine ⟨[] ++ new, _, rfl, by simpa using hlen, ?_, ?_⟩
  · rw [readWorld_files, hfiles]
    simp [hw1f]
  · intro j hj
    obtain ⟨q, hq⟩ := hnames j (by omega)
    exact ⟨q, by simpa using hq⟩

theorem start_already_open (env : Env) (ci wd ht fp : Int) (be : String) (s : CamState)
    (h : s.cap.isSome = true) :
    vision_start env ci wd ht fp be s
      = ({ ok := true, message := "Camera already open",
           props := s.props, index := s.index }, s) := by
  simp [vision_start, _open_cam, h]

theorem vision_start_eq (env : Env) (ci wd ht fp : Int) (be : String) (s : CamState) :
    vision_start env ci wd ht fp be s
      = ({ ok := ((_open_cam env ci wd ht fp be s).1).1,
           message := ((_open_cam env ci wd ht fp be s).1).2,
           props := ((_open_cam env ci wd ht fp be s).2).props,
           index := ((_open_cam env ci wd ht fp be s).2).index },
         (_open_cam env ci wd ht fp be s).2) := by
  cases hoc : _open_cam env ci wd ht fp be s with
  | mk fst snd => cases fst with
    | mk ok msg => simp [vision_start, hoc]

theorem open_cam_ok_isSome (env : Env) (ci wd ht fp : Int) (be : String) (s : CamState)
    (h : ((_open_cam env ci wd ht fp be s).1).1 = true) :
    ((_open_cam env ci wd ht fp be s).2).cap.isSome = true := by
  unfold _open_cam at h ⊢
  by_cases hS : s.cap.isSome = true
  · simpa [hS] using hS
  · simp only [hS, if_false] at h ⊢
    cases ho : env.openCap ci
        ((_BACKENDS env (if be = "" then "auto" else pyStrip (pyLower be))).getD none) with
    | none =>
        rw [ho] at h
        simp at h
    | some cap =>
        rw [ho] at h
        by_cases hop : cap.opened = false
        · simp [hop] at h
        · simp [hop]

theorem start_ok_isSome (env : Env) (ci wd ht fp : Int) (be : String) (s : CamState)
    (h : ((vision_start env ci wd ht fp be s).1).ok = true) :
    ((vision_start env ci wd ht fp be s).2).cap.isSome = true := by
  rw [vision_start_eq] at h ⊢
  exact open_cam_ok_isSome env ci wd ht fp be s h

end Lemmas

section ClaimTheorems

/-- C7: whenever the session is closed (no handle), vision_capture returns
    ok=false with error Camera not open and vision_burst returns ok=false with
    error Camera not open, both leaving the world untouched: no file is
    written and no directory is created. -/
theorem closed_ops_no_effect :
    ∀ (env : Env) (dir fmt : String) (n pms wm dm : Int) (s : CamState) (w : World),
    s.cap = none →
    vision_capture env dir fmt s w
      = (PyResult.ok (CaptureResult.err ("Camera not open")), w)
    ∧ vision_burst env n pms dir fmt wm dm s w
      = (PyResult.ok (BurstResult.errNoPaths ("Camera not open")), w) := by
  intro env dir fmt n pms wm dm s w hs
  constructor
  · simp [vision_capture, _grab_frame, hs]
  · simp [vision_burst, hs]

/-- Witness for C7 at a concrete closed session. -/
theorem closed_ops_no_effect_witness :
    sClosed.cap = none
    ∧ (vision_capture goodEnv (".") ("jpg") sClosed w0
        = (PyResult.ok (CaptureResult.err ("Camera not open")), w0)
      ∧ vision_burst goodEnv 8 150 (".") ("jpg") 3 0 sClosed w0
        = (PyResult.ok (BurstResult.errNoPaths ("Camera not open")), w0)) :=
  ⟨rfl, closed_ops_no_effect goodEnv (".") ("jpg") 8 150 3 0 sClosed w0 rfl⟩

/-- C10: a burst on an open session with duration_ms positive and period_ms
    zero performs an unguarded division by zero: no structured ok=false result
    is produced, a ZeroDivisionError escapes the operation instead, before any
    read, directory creation or write. -/
theorem burst_period_zero_raises :
    ∀ (env : Env) (n : Int) (dir fmt : String) (wm dm : Int) (s : CamState) (w : World)
      (c : Cap),
    s.cap = some c → c.opened = true → dm > 0 →
    vision_burst env n 0 dir fmt wm dm s w = (PyResult.raised ("ZeroDivisionError"), w) := by
  intro env n dir fmt wm dm s w c hs hc hdm
  have h1 : dm ≠ 0 ∧ dm > 0 := ⟨by omega, hdm⟩
  simp [vision_burst, hs, hc, h1]

/-- Witness for C10 at a concrete open session. -/
theorem burst_period_zero_raises_witness :
    sOpenG.cap = some { id := 0, opened := true }
    ∧ (500 : Int) > 0
    ∧ vision_burst goodEnv 8 0 (".") ("jpg") 3 500 sOpenG w0
        = (PyResult.raised ("ZeroDivisionError"), w0) :=
  ⟨rfl, by decide,
   burst_period_zero_raises goodEnv 8 (".") ("jpg") 3 500 sOpenG w0
     { id := 0, opened := true } rfl rfl (by decide)⟩

/-- C6: opening while a handle is already open is an idempotent no-op: it
    returns ok=true with message Camera already open and leaves the handle,
    device index and properties exactly as they were; in particular, after any
    successful open, a second open with any arguments returns ok=true and
    leaves the whole session state (hence the properties) unchanged. -/
theorem start_idempotent_when_open :
    (∀ (env : Env) (ci wd ht fp : Int) (be : String) (s : CamState),
      s.cap.isSome = true →
      vision_start env ci wd ht fp be s
        = ({ ok := true, message := "Camera already open",
             props := s.props, index := s.index }, s))
    ∧ (∀ (env : Env) (ci wd ht fp : Int) (be : String)
        (ci2 wd2 ht2 fp2 : Int) (be2 : String) (s : CamState),
      ((vision_start env ci wd ht fp be s).1).ok = true →
      vision_start env ci2 wd2 ht2 fp2 be2 ((vision_start env ci wd ht fp be s).2)
        = ({ ok := true, message := "Camera already open",
             props := ((vision_start env ci wd ht fp be s).2).props,
             index := ((vision_start env ci wd ht fp be s).2).index },
           (vision_start env ci wd ht fp be s).2)) :=
  ⟨fun env ci wd ht fp be s h => start_already_open env ci wd ht fp be s h,
   fun env ci wd ht fp be ci2 wd2 ht2 fp2 be2 s h =>
     start_already_open env ci2 wd2 ht2 fp2 be2 _
       (start_ok_isSome env ci wd ht fp be s h)⟩

/-- Witness for C6: a second open over an already-open session. -/
theorem start_idempotent_when_open_witness :
    ((vision_start goodEnv 0 640 480 15 ("auto") sClosed).1).ok = true
    ∧ vision_start goodEnv 1 320 240 30 ("v4l2")
        ((vision_start goodEnv 0 640 480 15 ("auto") sClosed).2)
      = ({ ok := true, message := "Camera already open",
           props := ((vision_start goodEnv 0 640 480 15 ("auto") sClosed).2).props,
           index := ((vision_start goodEnv 0 640 480 15 ("auto") sClosed).2).index },
         (vision_start goodEnv 0 640 480 15 ("auto") sClosed).2) :=
  ⟨rfl, start_idempotent_when_open.2 goodEnv 0 640 480 15 ("auto") 1 320 240 30 ("v4l2")
    sClosed rfl⟩

/-- C4: when duration_ms is positive (and period_ms nonzero, without which the
    division raises), the effective frame count of a burst is
    max(1, round(duration_ms / period_ms)) with Python's round-half-to-even,
    and the result does not depend on the supplied count n; when duration_ms
    is 0 the supplied count is used unchanged (the loop then runs
    max(1, n) iterations). -/
theorem burst_duration_override :
    ∀ (env : Env) (n n2 pms : Int) (dir fmt : String) (wm dm : Int)
      (s : CamState) (w : World) (c : Cap),
    s.cap = some c → c.opened = true →
    (∀ k, (env.readFrame k).isSome = true) →
    (∀ f e, env.encodeOk f e = true) →
    env.mkdirOk (env.expanduser dir) = true →
    (∀ p, env.writeOk p = true) →
    (dm > 0 → pms ≠ 0 →
      vision_burst env n pms dir fmt wm dm s w = vision_burst env n2 pms dir fmt wm dm s w
      ∧ ∃ r w', vision_burst env n pms dir fmt wm dm s w
          = (PyResult.ok (BurstResult.done r), w')
        ∧ r.paths.length = Int.toNat (max 1 (roundHalfEven ((dm : ℚ) / (pms : ℚ)))))
    ∧ (dm = 0 →
      ∃ r w', vision_burst env n pms dir fmt wm dm s w
          = (PyResult.ok (BurstResult.done r), w')
        ∧ r.paths.length = Int.toNat (max 1 n)) := by
  intro env n n2 pms dir fmt wm dm s w c hs hc hrd hen hmk hwr
  constructor
  · intro hdm hp
    constructor
    · rw [vision_burst_eq_rest env n pms dir fmt wm dm s w c hs hc (fun _ => hp),
          vision_burst_eq_rest env n2 pms dir fmt wm dm s w c hs hc (fun _ => hp)]
      have heff : effN n pms dm = effN n2 pms dm := by
        simp [effN, show dm ≠ 0 ∧ dm > 0 from ⟨by omega, hdm⟩]
      rw [heff]
    · obtain ⟨r, w', heq, hlen, _⟩ :=
        burst_good_run env n pms dir fmt wm dm s w c hs hc (fun _ => hp) hrd hen hmk hwr
      refine ⟨r, w', heq, ?_⟩
      rw [hlen]
      have heff : effN n pms dm = max 1 (roundHalfEven ((dm : ℚ) / (pms : ℚ))) := by
        simp [effN, show dm ≠ 0 ∧ dm > 0 from ⟨by omega, hdm⟩]
      rw [heff, ← max_assoc, max_self]
  · intro hdm
    have hdp : dm > 0 → pms ≠ 0 := fun h => absurd h (by omega)
    obtain ⟨r, w', heq, hlen, _⟩ :=
      burst_good_run env n pms dir fmt wm dm s w c hs hc hdp hrd hen hmk hwr
    refine ⟨r, w', heq, ?_⟩
    rw [hlen]
    have heff : effN n pms dm = n := by simp [effN, hdm]
    rw [heff]

/-- Witness for C4: duration 500 at period 100 gives 5 frames for two
    different supplied counts. -/
theorem burst_duration_override_witness :
    (∀ k, (goodEnv.readFrame k).isSome = true)
    ∧ (vision_burst goodEnv 8 100 (".") ("jpg") 0 500 sOpenG w0
        = vision_burst goodEnv 3 100 (".") ("jpg") 0 500 sOpenG w0
      ∧ ∃ r w', vision_burst goodEnv 8 100 (".") ("jpg") 0 500 sOpenG w0
          = (PyResult.ok (BurstResult.done r), w')
        ∧ r.paths.length = Int.toNat (max 1 (roundHalfEven ((500 : ℚ) / (100 : ℚ))))) :=
  ⟨fun _ => rfl,
   (burst_duration_override goodEnv 8 3 100 (".") ("jpg") 0 500 sOpenG w0
      { id := 0, opened := true } rfl rfl (fun _ => rfl) (fun _ _ => rfl) rfl
      (fun _ => rfl)).1 (by decide) (by decide)⟩

/-- C2: in a burst over an open session, if the reads and the encodes for
    frames 0..i-1 succeed (with every write succeeding) and the read - or the
    encode - of frame i fails, the burst aborts at frame i and returns
    ok=false together with exactly the i file paths already written, in
    capture order (path j carries the index suffix for j), and no further
    file is created (the final files are the initial ones plus those i). -/
theorem burst_abort_partial :
    (∀ (env : Env) (n pms : Int) (dir fmt : String) (wm dm : Int)
      (s : CamState) (w : World) (c : Cap) (i : Nat),
      s.cap = some c → c.opened = true → (dm > 0 → pms ≠ 0) →
      env.mkdirOk (env.expanduser dir) = true →
      (∀ p, env.writeOk p = true) →
      i < Int.toNat (max 1 (effN n pms dm)) →
      (∀ j, j < i → ∃ f,
          env.readFrame (w.reads + Int.toNat (max 0 wm) + j) = some f
          ∧ env.encodeOk f (extOf fmt) = true) →
      env.readFrame (w.reads + Int.toNat (max 0 wm) + i) = none →
      ∃ (P : List String) (w' : World),
        vision_burst env n pms dir fmt wm dm s w
          = (PyResult.ok (BurstResult.errPaths
              ("Failed to read frame: Failed to read frame") P), w')
        ∧ P.length = i
        ∧ w'.files = w.files ++ P
        ∧ w'.dirs = w.dirs ++ [env.expanduser dir]
        ∧ (∀ j, j < i → ∃ q, P.getD j ("")
            = env.expanduser dir ++ "/" ++ ("asl_" ++ q ++ "_" ++ pad2 j ++ extOf fmt)))
    ∧ (∀ (env : Env) (n pms : Int) (dir fmt : String) (wm dm : Int)
      (s : CamState) (w : World) (c : Cap) (i : Nat) (fi : Frame),
      s.cap = some c → c.opened = true → (dm > 0 → pms ≠ 0) →
      env.mkdirOk (env.expanduser dir) = true →
      (∀ p, env.writeOk p = true) →
      i < Int.toNat (max 1 (effN n pms dm)) →
      (∀ j, j < i → ∃ f,
          env.readFrame (w.reads + Int.toNat (max 0 wm) + j) = some f
          ∧ env.encodeOk f (extOf fmt) = true) →
      env.readFrame (w.reads + Int.toNat (max 0 wm) + i) = some fi →
      env.encodeOk fi (extOf fmt) = false →
      ∃ (P : List String) (w' : World),
        vision_burst env n pms dir fmt wm dm s w
          = (PyResult.ok (BurstResult.errPaths ("cv2.imencode failed") P), w')
        ∧ P.length = i
        ∧ w'.files = w.files ++ P
        ∧ (∀ j, j < i → ∃ q, P.getD j ("")
            = env.expanduser dir ++ "/" ++ ("asl_" ++ q ++ "_" ++ pad2 j ++ extOf fmt))) :=
  ⟨fun env n pms dir fmt wm dm s w c i hs hc hdp hmk hwr hcnt hrd hfail =>
    burst_read_fail_run env n pms dir fmt wm dm s w c i hs hc hdp hmk hwr hcnt hrd hfail,
   fun env n pms dir fmt wm dm s w c i fi hs hc hdp hmk hwr hcnt hrd hfi hei =>
    burst_encode_fail_run env n pms dir fmt wm dm s w c i fi hs hc hdp hmk hwr hcnt hrd
      hfi hei⟩

/-- Witness for C2: the third of five reads fails; exactly two paths remain. -/
theorem burst_abort_partial_witness :
    failAt2Env.readFrame (w0.reads + Int.toNat (max 0 (0 : Int)) + 2) = none
    ∧ ∃ (P : List String) (w' : World),
      vision_burst failAt2Env 5 100 (".") ("jpg") 0 0 sOpenG w0
        = (PyResult.ok (BurstResult.errPaths
            ("Failed to read frame: Failed to read frame") P), w')
      ∧ P.length = 2
      ∧ w'.files = w0.files ++ P
      ∧ w'.dirs = w0.dirs ++ [failAt2Env.expanduser (".")]
      ∧ (∀ j, j < 2 → ∃ q, P.getD j ("")
          = failAt2Env.expanduser (".") ++ "/"
            ++ ("asl_" ++ q ++ "_" ++ pad2 j ++ extOf ("jpg"))) :=
  ⟨rfl,
   burst_abort_partial.1 failAt2Env 5 100 (".") ("jpg") 0 0 sOpenG w0
     { id := 0, opened := true } 2 rfl rfl (fun h => absurd h (by decide)) rfl
     (fun _ => rfl) (by decide)
     (fun j hj => ⟨{ data := w0.reads + Int.toNat (max 0 (0 : Int)) + j },
       by simp [failAt2Env, goodEnv, w0]; omega, rfl⟩) rfl⟩

/-- C3 (amended): a burst over an open session with a fully cooperative
    device writes exactly max(1, n) files, n being the count after any
    duration override; the returned path list is exactly the list of files
    written, in capture order; the path at position j carries the strictly
    increasing index suffix for j, zero-padded to a minimum of two digits
    (two digits exactly only for indices below 100); and the returned n field
    equals the number of paths. -/
theorem burst_success_shape :
    ∀ (env : Env) (n pms : Int) (dir fmt : String) (wm dm : Int) (s : CamState)
      (w : World) (c : Cap),
    s.cap = some c → c.opened = true → (dm > 0 → pms ≠ 0) →
    (∀ k, (env.readFrame k).isSome = true) →
    (∀ f e, env.encodeOk f e = true) →
    env.mkdirOk (env.expanduser dir) = true →
    (∀ p, env.writeOk p = true) →
    ∃ r w',
      vision_burst env n pms dir fmt wm dm s w = (PyResult.ok (BurstResult.done r), w')
      ∧ r.paths.length = Int.toNat (max 1 (effN n pms dm))
      ∧ r.n = r.paths.length
      ∧ w'.files = w.files ++ r.paths
      ∧ (∀ j, j < r.paths.length → ∃ q, r.paths.getD j ("")
          = env.expanduser dir ++ "/" ++ ("asl_" ++ q ++ "_" ++ pad2 j ++ extOf fmt)) := by
  intro env n pms dir fmt wm dm s w c hs hc hdp hrd hen hmk hwr
  obtain ⟨r, w', heq, hlen, hn, _, _, _, _, hfiles, hdirs, hnames⟩ :=
    burst_good_run env n pms dir fmt wm dm s w c hs hc hdp hrd hen hmk hwr
  exact ⟨r, w', heq, hlen, hn, hfiles, hnames⟩

/-- Witness for C3 (amended): a five-frame burst at a concrete environment. -/
theorem burst_success_shape_witness :
    sOpenG.cap = some { id := 0, opened := true }
    ∧ ∃ r w',
      vision_burst goodEnv 5 100 (".") ("jpg") 0 0 sOpenG w0
        = (PyResult.ok (BurstResult.done r), w')
      ∧ r.paths.length = Int.toNat (max 1 (effN 5 100 0))
      ∧ r.n = r.paths.length
      ∧ w'.files = w0.files ++ r.paths
      ∧ (∀ j, j < r.paths.length → ∃ q, r.paths.getD j ("")
          = goodEnv.expanduser (".") ++ "/"
            ++ ("asl_" ++ q ++ "_" ++ pad2 j ++ extOf ("jpg"))) :=
  ⟨rfl,
   burst_success_shape goodEnv 5 100 (".") ("jpg") 0 0 sOpenG w0
     { id := 0, opened := true } rfl rfl (fun h => absurd h (by decide)) (fun _ => rfl)
     (fun _ _ => rfl) rfl (fun _ => rfl)⟩

/-- C3 counterexample: with 101 frames the file for index 100 is named with
    the three-character suffix 100 - its name does not decompose with a
    two-character index part - so the names do not all carry two-digit index
    suffixes as the claim states. -/
theorem burst_two_digit_cex :
    (okPaths (vision_burst goodEnv 101 0 (".") ("jpg") 0 0 sOpenG w0).1).getD 100 ("")
      = "./asl_T_100.jpg"
    ∧ (okPaths (vision_burst goodEnv 101 0 (".") ("jpg") 0 0 sOpenG w0).1).length = 101
    ∧ ¬ ∃ d : String, d.length = 2
        ∧ "./asl_T_100.jpg" = "./asl_T" ++ "_" ++ d ++ ".jpg" := by
  refine ⟨by decide, by decide, ?_⟩
  rintro ⟨d, hd, he⟩
  have hlen2 := congrArg String.length he
  rw [String.length_append, String.length_append, String.length_append, hd] at hlen2
  exact absurd hlen2 (by decide)

/-- C9 counterexample: with a device that cannot be opened, an unrecognized
    backend xyz does not behave identically to auto: the failure message
    differs (it carries backend=xyz, not backend=auto). -/
theorem backend_message_cex :
    ((vision_start noOpenEnv 0 640 480 15 ("xyz") sClosed).1).message
      ≠ ((vision_start noOpenEnv 0 640 480 15 ("auto") sClosed).1).message := by
  decide

/-- C9 (amended): backend matching is case-insensitive after trimming - two
    non-empty backend strings with the same lowered and stripped form give
    identical open calls - and an unrecognized backend takes the same
    acquisition path as auto (no API preference), producing the same ok
    outcome, handle and index; but the failure message and the recorded
    backend property carry the normalized input string itself, not auto. -/
theorem backend_fallback :
    (∀ (env : Env) (ci wd ht fp : Int) (b1 b2 : String) (s : CamState),
      b1 ≠ "" → b2 ≠ "" → pyStrip (pyLower b1) = pyStrip (pyLower b2) →
      vision_start env ci wd ht fp b1 s = vision_start env ci wd ht fp b2 s)
    ∧ (∀ (env : Env) (ci wd ht fp : Int) (be : String) (s : CamState),
      s.cap = none → be ≠ "" →
      pyStrip (pyLower be)
        ∉ (["auto", "avfoundation", "msmf", "dshow", "v4l2"] : List String) →
      ((vision_start env ci wd ht fp be s).1).ok
          = ((vision_start env ci wd ht fp ("auto") s).1).ok
      ∧ ((vision_start env ci wd ht fp be s).2).cap
          = ((vision_start env ci wd ht fp ("auto") s).2).cap
      ∧ ((vision_start env ci wd ht fp be s).2).index
          = ((vision_start env ci wd ht fp ("auto") s).2).index
      ∧ (((vision_start env ci wd ht fp be s).1).ok = false →
          ((vision_start env ci wd ht fp be s).1).message
            = "Failed to open camera index " ++ toString ci
              ++ " (backend=" ++ pyStrip (pyLower be) ++ ")")
      ∧ (((vision_start env ci wd ht fp be s).1).ok = true →
          ∃ p p2, ((vision_start env ci wd ht fp be s).2).props = some p
            ∧ ((vision_start env ci wd ht fp ("auto") s).2).props = some p2
            ∧ p.backend = pyStrip (pyLower be)
            ∧ p2.backend = "auto"
            ∧ p.width = p2.width ∧ p.height = p2.height ∧ p.fps = p2.fps)) := by
  constructor
  · intro env ci wd ht fp b1 b2 s h1 h2 heq
    have hoc : _open_cam env ci wd ht fp b1 s = _open_cam env ci wd ht fp b2 s := by
      simp only [_open_cam, h1, h2, if_neg, heq]
    rw [vision_start_eq, vision_start_eq, hoc]
  · intro env ci wd ht fp be s hs hne hbn
    have hS : s.cap.isSome = false := by simp [hs]
    simp only [List.mem_cons, List.not_mem_nil, or_false] at hbn
    push_neg at hbn
    obtain ⟨h1, h2, h3, h4, h5⟩ := hbn
    have hbk : (_BACKENDS env (pyStrip (pyLower be))).getD none = none := by
      simp [_BACKENDS, h1, h2, h3, h4, h5]
    have hak : (_BACKENDS env ("auto")).getD none = none := by
      simp [_BACKENDS]
    have hbe : _open_cam env ci wd ht fp be s
        = (match env.openCap ci none with
           | none =>
              ((false, "Failed to open camera index " ++ toString ci
                  ++ " (backend=" ++ pyStrip (pyLower be) ++ ")"), s)
           | some cap =>
              if cap.opened = false then
                ((false, "Failed to open camera index " ++ toString ci
                    ++ " (backend=" ++ pyStrip (pyLower be) ++ ")"), s)
              else
                ((true, "Camera opened"),
                 { cap := some cap, index := some ci,
                   props := some { width := env.actualWidth cap,
                                   height := env.actualHeight cap,
                                   fps := env.actualFps cap,
                                   backend := pyStrip (pyLower be) } })) := by
      simp only [_open_cam, hS, Bool.false_eq_true, if_false, hne, if_neg, hbk]
    have hau : _open_cam env ci wd ht fp ("auto") s
        = (match env.openCap ci none with
           | none =>
              ((false, "Failed to open camera index " ++ toString ci
                  ++ " (backend=" ++ "auto" ++ ")"), s)
           | some cap =>
              if cap.opened = false then
                ((false, "Failed to open camera index " ++ toString ci
                    ++ " (backend=" ++ "auto" ++ ")"), s)
              else
                ((true, "Camera opened"),
                 { cap := some cap, index := some ci,
                   props := some { width := env.actualWidth cap,
                                   height := env.actualHeight cap,
                                   fps := env.actualFps cap,
                                   backend := "auto" } })) := by
      have hlow : (if ("auto" : String) = "" then "auto" else pyStrip (pyLower ("auto")))
          = "auto" := by decide
      simp only [_open_cam, hS, Bool.false_eq_true, if_false, hlow, _BACKENDS]
      simp
    rw [vision_start_eq, vision_start_eq, hbe, hau]
    rcases ho : env.openCap ci none with _ | cap
    · simp
    · by_cases hop : cap.opened = false
      · simp [hop]
      · simp [hop]

/-- Witness for C9 (amended): backend XYZ (unrecognized) against auto on a
    closed session. -/
theorem backend_fallback_witness :
    pyStrip (pyLower ("  XYZ "))
      ∉ (["auto", "avfoundation", "msmf", "dshow", "v4l2"] : List String)
    ∧ (((vision_start noOpenEnv 0 640 480 15 ("  XYZ ") sClosed).1).ok
        = ((vision_start noOpenEnv 0 640 480 15 ("auto") sClosed).1).ok
      ∧ ((vision_start noOpenEnv 0 640 480 15 ("  XYZ ") sClosed).2).cap
        = ((vision_start noOpenEnv 0 640 480 15 ("auto") sClosed).2).cap
      ∧ ((vision_start noOpenEnv 0 640 480 15 ("  XYZ ") sClosed).2).index
        = ((vision_start noOpenEnv 0 640 480 15 ("auto") sClosed).2).index
      ∧ (((vision_start noOpenEnv 0 640 480 15 ("  XYZ ") sClosed).1).ok = false →
          ((vision_start noOpenEnv 0 640 480 15 ("  XYZ ") sClosed).1).message
            = "Failed to open camera index " ++ toString (0 : Int)
              ++ " (backend=" ++ pyStrip (pyLower ("  XYZ ")) ++ ")")
      ∧ (((vision_start noOpenEnv 0 640 480 15 ("  XYZ ") sClosed).1).ok = true →
          ∃ p p2, ((vision_start noOpenEnv 0 640 480 15 ("  XYZ ") sClosed).2).props
              = some p
            ∧ ((vision_start noOpenEnv 0 640 480 15 ("auto") sClosed).2).props = some p2
            ∧ p.backend = pyStrip (pyLower ("  XYZ "))
            ∧ p2.backend = "auto"
            ∧ p.width = p2.width ∧ p.height = p2.height ∧ p.fps = p2.fps)) :=
  ⟨by decide,
   backend_fallback.2 noOpenEnv 0 640 480 15 ("  XYZ ") sClosed rfl (by decide) (by decide)⟩

end ClaimTheorems

section MoreLemmas

theorem encode_true_ext (env : Env) (f : Frame) (fmt : String) (bts : Bytes) (e3 : String)
    (he : _encode_image env f fmt = (true, bts, e3)) :
    env.encodeOk f (extOf fmt) = true ∧ e3 = extOf fmt := by
  unfold _encode_image at he
  by_cases hek : env.encodeOk f (extOf fmt) = true
  · rw [if_pos hek] at he
    simp only [Prod.mk.injEq] at he
    exact ⟨hek, he.2.2.symm⟩
  · rw [if_neg hek] at he
    simp at he

theorem capture_success_shape (env : Env) (dir fmt : String) (s : CamState) (w : World)
    (p m : String) (wd ht : Int)
    (h : (vision_capture env dir fmt s w).1
      = PyResult.ok (CaptureResult.success p m wd ht)) :
    m = (if extOf fmt = ".jpg" then "image/jpeg" else "image/png")
    ∧ ∃ q, p = q ++ extOf fmt := by
  unfold vision_capture at h
  split at h
  · simp at h
  · simp at h
  · rename_i frame msg w1 hgeq
    split at h
    · simp at h
    · rename_i bts e3 heenc
      obtain ⟨hek, he3⟩ := encode_true_ext env frame fmt bts e3 heenc
      subst he3
      by_cases hmk : env.mkdirOk (env.expanduser dir) = false
      · rw [if_pos hmk] at h
        simp at h
      · rw [if_neg hmk] at h
        by_cases hwf : env.writeOk (env.expanduser dir ++ "/"
            ++ _timestamp_name env w1.clock ("frame") (extOf fmt)) = false
        · rw [if_pos hwf] at h
          simp at h
        · rw [if_neg hwf] at h
          simp only [PyResult.ok.injEq, CaptureResult.success.injEq] at h
          obtain ⟨hp, hm, _, _⟩ := h
          refine ⟨hm.symm, ?_⟩
          refine ⟨env.expanduser dir ++ "/" ++ ("frame" ++ "_" ++ env.stamp w1.clock), ?_⟩
          rw [← hp]
          unfold _timestamp_name
          rw [String.append_assoc (env.expanduser dir ++ "/")]

theorem burstLoop_paths_ext (env : Env) (s : CamState) (fmt ext dir : String) (t0 ps : ℚ) :
    ∀ (l : List Nat) (w : World) (paths : List String),
    (∀ p ∈ paths, ∃ q, p = q ++ ext) →
    ∀ (out : LoopOut) (w' : World),
    burstLoop env s fmt ext dir t0 ps l w paths = (PyResult.ok out, w') →
    ∀ p ∈ out.pathsOf, ∃ q, p = q ++ ext := by
  intro l
  induction l with
  | nil =>
      intro w paths hp out w' h
      simp only [burstLoop, Prod.mk.injEq, PyResult.ok.injEq] at h
      obtain ⟨h1, _⟩ := h
      subst h1
      simpa [LoopOut.pathsOf] using hp
  | cons i t ih =>
      intro w paths hp out w' h
      simp only [burstLoop] at h
      split at h
      · simp only [Prod.mk.injEq, PyResult.ok.injEq] at h
        obtain ⟨h1, _⟩ := h
        subst h1
        simpa [LoopOut.pathsOf] using hp
      · simp only [Prod.mk.injEq, PyResult.ok.injEq] at h
        obtain ⟨h1, _⟩ := h
        subst h1
        simpa [LoopOut.pathsOf] using hp
      · rename_i frame msg w2 hgeq
        split at h
        · simp only [Prod.mk.injEq, PyResult.ok.injEq] at h
          obtain ⟨h1, _⟩ := h
          subst h1
          simpa [LoopOut.pathsOf] using hp
        · split at h
          · simp at h
          · refine ih _ _ ?_ out w' h
            intro p hpmem
            rcases List.mem_append.mp hpmem with hin | hone
            · exact hp p hin
            · rw [List.mem_singleton] at hone
              subst hone
              refine ⟨dir ++ "/" ++ ("asl_" ++ env.stamp w2.clock ++ "_" ++ pad2 i), ?_⟩
              rw [String.append_assoc (dir ++ "/")]

theorem burst_done_shape (env : Env) (n pms : Int) (dir fmt : String) (wm dm : Int)
    (s : CamState) (w : World) (r : BurstOk)
    (h : (vision_burst env n pms dir fmt wm dm s w).1 = PyResult.ok (BurstResult.done r)) :
    r.mime = (if extOf fmt = ".jpg" then "image/jpeg" else "image/png")
    ∧ ∀ p ∈ r.paths, ∃ q, p = q ++ extOf fmt := by
  have hrest : ∀ nv : Int,
      (vision_burst_rest env nv pms dir fmt wm dm s w).1
        = PyResult.ok (BurstResult.done r) →
      r.mime = (if extOf fmt = ".jpg" then "image/jpeg" else "image/png")
      ∧ ∀ p ∈ r.paths, ∃ q, p = q ++ extOf fmt := by
    intro nv hR
    unfold vision_burst_rest at hR
    dsimp only at hR
    split at hR
    · simp at hR
    · split at hR
      · simp at hR
      · simp at hR
      · rename_i qs w2 hbl
        simp only [PyResult.ok.injEq, BurstResult.done.injEq] at hR
        have hpaths := burstLoop_paths_ext env s fmt (extOf fmt)
          (env.expanduser dir) _ _ _ _ _ (by intro p hp; simp at hp)
          (LoopOut.finished qs) w2 hbl
        subst hR
        exact ⟨rfl, by simpa [LoopOut.pathsOf] using hpaths⟩
  unfold vision_burst at h
  split at h
  · simp at h
  · split at h
    · simp at h
    · split at h
      · split at h
        · simp at h
        · exact hrest _ h
      · exact hrest n h

end MoreLemmas

section ClaimTheorems2

/-- C8: any format other than jpg, case-insensitively, is treated as png by
    both capture and burst: a successful capture's path ends in .png and its
    mime is image/png, and a successful burst's mime is image/png with every
    written path ending in .png; jpg itself yields .jpg and image/jpeg. -/
theorem format_fallback :
    ∀ (env : Env) (dir fmt : String) (s : CamState) (w : World),
    (∀ (p m : String) (wd ht : Int),
      (vision_capture env dir fmt s w).1
        = PyResult.ok (CaptureResult.success p m wd ht) →
      (pyLower fmt = "jpg" → m = "image/jpeg" ∧ ∃ q, p = q ++ ".jpg")
      ∧ (pyLower fmt ≠ "jpg" → m = "image/png" ∧ ∃ q, p = q ++ ".png"))
    ∧ (∀ (n pms wm dm : Int) (r : BurstOk),
      (vision_burst env n pms dir fmt wm dm s w).1
        = PyResult.ok (BurstResult.done r) →
      (pyLower fmt = "jpg" →
        r.mime = "image/jpeg" ∧ ∀ p ∈ r.paths, ∃ q, p = q ++ ".jpg")
      ∧ (pyLower fmt ≠ "jpg" →
        r.mime = "image/png" ∧ ∀ p ∈ r.paths, ∃ q, p = q ++ ".png")) := by
  intro env dir fmt s w
  constructor
  · intro p m wd ht h
    obtain ⟨hm, hq⟩ := capture_success_shape env dir fmt s w p m wd ht h
    constructor
    · intro hj
      have hext : extOf fmt = ".jpg" := by simp [extOf, hj]
      rw [hext] at hm hq
      exact ⟨hm.trans (if_pos rfl), hq⟩
    · intro hj
      have hext : extOf fmt = ".png" := by simp [extOf, hj]
      rw [hext] at hm hq
      exact ⟨hm.trans (if_neg (by decide)), hq⟩
  · intro n pms wm dm r h
    obtain ⟨hm, hq⟩ := burst_done_shape env n pms dir fmt wm dm s w r h
    constructor
    · intro hj
      have hext : extOf fmt = ".jpg" := by simp [extOf, hj]
      rw [hext] at hm hq
      exact ⟨hm.trans (if_pos rfl), hq⟩
    · intro hj
      have hext : extOf fmt = ".png" := by simp [extOf, hj]
      rw [hext] at hm hq
      exact ⟨hm.trans (if_neg (by decide)), hq⟩

/-- Witness for C8: format xyz on a capture yields a png path and mime. -/
theorem format_fallback_witness :
    pyLower ("xyz") ≠ "jpg"
    ∧ ("image/png" = "image/png" ∧ ∃ q, ("./frame_T.png" : String) = q ++ ".png") :=
  ⟨by decide,
   ((format_fallback goodEnv (".") ("xyz") sOpenG w0).1 ("./frame_T.png") ("image/png")
      640 480 rfl).2 (by decide)⟩

/-- C1 counterexample: filesystem failures are not all captured locally. A
    directory-creation failure during capture escapes as an exception, as does
    a file-write failure during burst, instead of producing a structured
    ok=false result. -/
theorem fs_error_raises_cex :
    (vision_capture badMkEnv ("d") ("jpg") sOpenG w0).1 = PyResult.raised ("OSError: E")
    ∧ (vision_burst badWrEnv 1 100 ("d") ("jpg") 0 0 sOpenG w0).1
        = PyResult.raised ("OSError: E") :=
  ⟨rfl, rfl⟩

/-- C1 (amended): only capture's file write is guarded. A write failure in
    capture is caught and returned as ok=false with a Failed-to-write error;
    but a directory-creation failure in capture raises, a directory-creation
    failure in burst raises, and a file-write failure in burst raises (leaving
    the files as they were), all escaping past the caller boundary. -/
theorem fs_errors_amended :
    (∀ (env : Env) (dir fmt : String) (s : CamState) (w : World) (c : Cap) (f : Frame),
      s.cap = some c → c.opened = true →
      env.readFrame w.reads = some f →
      env.encodeOk f (extOf fmt) = true →
      env.mkdirOk (env.expanduser dir) = false →
      (vision_capture env dir fmt s w).1
        = PyResult.raised ("OSError: " ++ env.osErr (env.expanduser dir)))
    ∧ (∀ (env : Env) (dir fmt : String) (s : CamState) (w : World) (c : Cap) (f : Frame),
      s.cap = some c → c.opened = true →
      env.readFrame w.reads = some f →
      env.encodeOk f (extOf fmt) = true →
      env.mkdirOk (env.expanduser dir) = true →
      env.writeOk (env.expanduser dir ++ "/"
        ++ _timestamp_name env (w.clock + env.readDur w.reads) ("frame") (extOf fmt))
        = false →
      (vision_capture env dir fmt s w).1
        = PyResult.ok (CaptureResult.err ("Failed to write file: "
            ++ env.osErr (env.expanduser dir ++ "/"
              ++ _timestamp_name env (w.clock + env.readDur w.reads) ("frame")
                (extOf fmt)))))
    ∧ (∀ (env : Env) (n pms : Int) (dir fmt : String) (wm dm : Int) (s : CamState)
        (w : World) (c : Cap),
      s.cap = some c → c.opened = true → (dm > 0 → pms ≠ 0) →
      env.mkdirOk (env.expanduser dir) = false →
      (vision_burst env n pms dir fmt wm dm s w).1
        = PyResult.raised ("OSError: " ++ env.osErr (env.expanduser dir)))
    ∧ (∀ (env : Env) (n pms : Int) (dir fmt : String) (wm dm : Int) (s : CamState)
        (w : World) (c : Cap),
      s.cap = some c → c.opened = true → (dm > 0 → pms ≠ 0) →
      env.mkdirOk (env.expanduser dir) = true →
      (∀ k, (env.readFrame k).isSome = true) →
      (∀ f e, env.encodeOk f e = true) →
      (∀ p, env.writeOk p = false) →
      ∃ msg, (vision_burst env n pms dir fmt wm dm s w).1
          = PyResult.raised ("OSError: " ++ msg)
        ∧ (vision_burst env n pms dir fmt wm dm s w).2.files = w.files) := by
  refine ⟨?_, ?_, ?_, ?_⟩
  · intro env dir fmt s w c f hs hc hrf hen hmk
    unfold vision_capture
    rw [grab_open env s c w hs hc, hrf]
    simp [_encode_image, hen, hmk]
  · intro env dir fmt s w c f hs hc hrf hen hmk hwf
    unfold vision_capture
    rw [grab_open env s c w hs hc, hrf]
    simp only [_encode_image, hen, if_true]
    simp [_timestamp_name] at hwf
    simp [hmk, hwf, _timestamp_name]
  · intro env n pms dir fmt wm dm s w c hs hc hdp hmk
    rw [vision_burst_eq_rest env n pms dir fmt wm dm s w c hs hc hdp]
    simp [vision_burst_rest, hmk]
  · intro env n pms dir fmt wm dm s w c hs hc hdp hmk hrd hen hwr
    obtain ⟨hw1r, hw1f, hw1d⟩ := warmupReads_shape env (Int.toNat (max 0 wm)) w
    rw [vision_burst_eq_rest env n pms dir fmt wm dm s w c hs hc hdp]
    simp only [vision_burst_rest, hmk]
    rw [List.range_eq_range']
    rw [show Int.toNat (max 1 (effN n pms dm))
        = (Int.toNat (max 1 (effN n pms dm)) - 1) + 1 from by omega, List.range'_succ]
    obtain ⟨f0, hf0⟩ := Option.isSome_iff_exists.mp (hrd
      (({ warmupReads env (Int.toNat (max 0 wm)) w with
          dirs := (warmupReads env (Int.toNat (max 0 wm)) w).dirs
            ++ [env.expanduser dir] } : World).reads))
    rw [burstLoop_cons_write_fail env s c fmt (extOf fmt) (env.expanduser dir)
      (warmupReads env (Int.toNat (max 0 wm)) w).clock (max 0 ((pms : ℚ) / 1000))
      hs hc 0 _ _ [] f0 hf0 (hen f0 (extOf fmt)) (hwr _)]
    refine ⟨env.osErr (stepPath env (env.expanduser dir) (extOf fmt)
        (warmupReads env (Int.toNat (max 0 wm)) w).clock (max 0 ((pms : ℚ) / 1000)) 0
        { warmupReads env (Int.toNat (max 0 wm)) w with
          dirs := (warmupReads env (Int.toNat (max 0 wm)) w).dirs
            ++ [env.expanduser dir] }), rfl, ?_⟩
    simp [readWorld_files, hw1f]

/-- Witness for C1 (amended): each of the four behaviours at a concrete
    environment. -/
theorem fs_errors_amended_witness :
    badMkEnv.mkdirOk (badMkEnv.expanduser ("d")) = false
    ∧ (vision_capture badMkEnv ("d") ("jpg") sOpenG w0).1
        = PyResult.raised ("OSError: " ++ badMkEnv.osErr (badMkEnv.expanduser ("d")))
    ∧ (vision_capture badWrEnv ("d") ("jpg") sOpenG w0).1
        = PyResult.ok (CaptureResult.err ("Failed to write file: "
            ++ badWrEnv.osErr (badWrEnv.expanduser ("d") ++ "/"
              ++ _timestamp_name badWrEnv (w0.clock + badWrEnv.readDur w0.reads) ("frame")
                (extOf ("jpg")))))
    ∧ (vision_burst badMkEnv 1 100 ("d") ("jpg") 0 0 sOpenG w0).1
        = PyResult.raised ("OSError: " ++ badMkEnv.osErr (badMkEnv.expanduser ("d")))
    ∧ ∃ msg, (vision_burst badWrEnv 1 100 ("d") ("jpg") 0 0 sOpenG w0).1
        = PyResult.raised ("OSError: " ++ msg)
      ∧ (vision_burst badWrEnv 1 100 ("d") ("jpg") 0 0 sOpenG w0).2.files = w0.files :=
  ⟨rfl,
   fs_errors_amended.1 badMkEnv ("d") ("jpg") sOpenG w0 { id := 0, opened := true }
     { data := 0 } rfl rfl rfl rfl rfl,
   fs_errors_amended.2.1 badWrEnv ("d") ("jpg") sOpenG w0 { id := 0, opened := true }
     { data := 0 } rfl rfl rfl rfl rfl rfl,
   fs_errors_amended.2.2.1 badMkEnv 1 100 ("d") ("jpg") 0 0 sOpenG w0
     { id := 0, opened := true } rfl rfl (fun _ => by decide) rfl,
   fs_errors_amended.2.2.2 badWrEnv 1 100 ("d") ("jpg") 0 0 sOpenG w0
     { id := 0, opened := true } rfl rfl (fun _ => by decide) rfl (fun _ => rfl)
     (fun _ _ => rfl) (fun _ => rfl)⟩

end ClaimTheorems2

section ScheduleLemmas

theorem warmupReads_const (env : Env) (d : ℚ) (hd : ∀ k, env.readDur k = d) :
    ∀ (k : Nat) (w : World),
    (warmupReads env k w).clock = w.clock + (k : ℚ) * d
    ∧ (warmupReads env k w).readTimes
      = w.readTimes ++ (List.range k).map (fun (j : ℕ) => w.clock + (j : ℚ) * d) := by
  intro k
  induction k with
  | zero => intro w; simp [warmupReads]
  | succ m ih =>
      intro w
      simp only [warmupReads]
      obtain ⟨h1, h2⟩ := ih ((capRead env w).2)
      constructor
      · rw [h1]
        simp only [capRead, hd]
        push_cast
        ring
      · rw [h2]
        simp only [capRead, hd]
        rw [List.range_succ_eq_map, List.map_cons, List.map_map]
        have hz : w.clock + ((0 : ℕ) : ℚ) * d = w.clock := by push_cast; ring
        rw [hz, List.append_assoc]
        congr 1
        rw [List.singleton_append]
        congr 1
        refine List.map_congr_left ?_
        intro j _
        simp only [Function.comp]
        push_cast
        ring

theorem preClock_shift (t0 ps d : ℚ) (a : Nat) (c0 : ℚ) :
    ∀ j, preClock t0 ps d (a + 1) (max c0 (t0 + (a : ℚ) * ps) + d) j
      = preClock t0 ps d a c0 (j + 1) := by
  intro j
  induction j with
  | zero => simp [preClock]
  | succ m ih =>
      simp only [preClock, ih]
      have hidx : a + 1 + m = a + (m + 1) := by omega
      rw [hidx]

theorem burstLoop_sched (env : Env) (s : CamState) (c : Cap) (fmt ext dir : String)
    (t0 ps : ℚ) (hs : s.cap = some c) (hc : c.opened = true) (d : ℚ)
    (hd : ∀ k, env.readDur k = d)
    (hrd : ∀ k, (env.readFrame k).isSome = true)
    (hen : ∀ f e, env.encodeOk f e = true)
    (hwr : ∀ p, env.writeOk p = true) :
    ∀ (k a : Nat) (w : World) (paths : List String),
    ∃ (out : LoopOut) (w' : World),
      burstLoop env s fmt ext dir t0 ps (List.range' a k) w paths = (PyResult.ok out, w')
      ∧ w'.readTimes = w.readTimes ++ (List.range k).map
          (fun j => max (preClock t0 ps d a w.clock j) (t0 + ((a + j : ℕ) : ℚ) * ps))
      ∧ w'.clock = preClock t0 ps d a w.clock k := by
  intro k
  induction k with
  | zero =>
      intro a w paths
      exact ⟨LoopOut.finished paths, w, by simp [burstLoop], by simp, by simp [preClock]⟩
  | succ m ih =>
      intro a w paths
      obtain ⟨f0, hf0⟩ := Option.isSome_iff_exists.mp (hrd w.reads)
      rw [List.range'_succ,
        burstLoop_cons_good env s c fmt ext dir t0 ps hs hc a _ w paths f0 hf0
          (hen f0 (extOf fmt)) (hwr _)]
      obtain ⟨out, w', heq, hrt, hck⟩ :=
        ih (a + 1) (stepWorld env dir ext t0 ps a w)
          (paths ++ [stepPath env dir ext t0 ps a w])
      refine ⟨out, w', heq, ?_, ?_⟩
      · rw [hrt, stepWorld_readTimes, stepWorld_clock, hd]
        rw [List.range_succ_eq_map, List.map_cons, List.map_map, List.append_assoc,
          List.singleton_append]
        congr 1
        rw [show max (preClock t0 ps d a w.clock 0) (t0 + ((a + 0 : ℕ) : ℚ) * ps)
            = max w.clock (t0 + (a : ℚ) * ps) from by simp [preClock]]
        congr 1
        refine List.map_congr_left ?_
        intro j _
        simp only [Function.comp]
        rw [preClock_shift]
        have hidx : a + (j + 1) = a + 1 + j := by omega
        rw [hidx]
      · rw [hck, stepWorld_clock, hd, preClock_shift]

theorem sched_ge (t0 per d : ℚ) (hd : 0 ≤ d) : ∀ j, t0 ≤ sched t0 per d j := by
  intro j
  induction j with
  | zero => simp [sched]
  | succ m ih =>
      simp only [sched]
      calc t0 ≤ sched t0 per d m + d := by linarith
      _ ≤ max (sched t0 per d m + d) (t0 + ((m : ℚ) + 1) * per) := le_max_left _ _

theorem sched_eq_pre (t0 per d : ℚ) (hd : 0 ≤ d) :
    ∀ j, max (preClock t0 (max 0 per) d 0 t0 j) (t0 + ((0 + j : ℕ) : ℚ) * max 0 per)
      = sched t0 per d j := by
  have hpre : ∀ j, preClock t0 (max 0 per) d 0 t0 (j + 1)
      = max (preClock t0 (max 0 per) d 0 t0 j) (t0 + ((0 + j : ℕ) : ℚ) * max 0 per) + d :=
    fun j => rfl
  intro j
  induction j with
  | zero => simp [preClock, sched]
  | succ m ih =>
      rw [hpre, ih]
      simp only [sched]
      rcases le_or_lt 0 per with hp | hp
      · rw [max_eq_right hp]
        push_cast
        ring_nf
      · rw [max_eq_left hp.le]
        have h1 : t0 + ((0 + (m + 1) : ℕ) : ℚ) * 0 = t0 := by push_cast; ring
        rw [h1]
        have hge : t0 ≤ sched t0 per d m + d := by
          have := sched_ge t0 per d hd m
          linarith
        rw [max_eq_left hge]
        have hneg : t0 + ((m : ℚ) + 1) * per ≤ sched t0 per d m + d := by
          have hmul : ((m : ℚ) + 1) * per ≤ 0 := by
            apply mul_nonpos_of_nonneg_of_nonpos
            · positivity
            · linarith
          have := sched_ge t0 per d hd m
          linarith
        rw [max_eq_left hneg]

end ScheduleLemmas

section ClaimTheorems3

/-- C5: in a burst over an open session with constant nonnegative read
    duration d (and a cooperative device and filesystem), the instants at
    which the frames are read follow the fixed-rate schedule anchored at the
    start instant t0, recorded once after the warmup: frame 0 is read at t0,
    and frame i+1 at max(time of frame i plus d, t0 + (i+1) * periodMs/1000) -
    that is, the loop sleeps exactly until the fixed target t0 + i * period
    when that target is still in the future, does not sleep when it is past,
    and never reschedules a target from the completion time of earlier
    frames. -/
theorem burst_schedule_times :
    ∀ (env : Env) (n pms : Int) (dir fmt : String) (wm dm : Int) (s : CamState)
      (w : World) (c : Cap) (d : ℚ),
    s.cap = some c → c.opened = true → (dm > 0 → pms ≠ 0) →
    (∀ k, (env.readFrame k).isSome = true) →
    (∀ f e, env.encodeOk f e = true) →
    env.mkdirOk (env.expanduser dir) = true →
    (∀ p, env.writeOk p = true) →
    (∀ k, env.readDur k = d) → 0 ≤ d →
    (vision_burst env n pms dir fmt wm dm s w).2.readTimes
      = w.readTimes
        ++ (List.range (Int.toNat (max 0 wm))).map (fun (j : ℕ) => w.clock + (j : ℚ) * d)
        ++ (List.range (Int.toNat (max 1 (effN n pms dm)))).map
            (sched (w.clock + ((Int.toNat (max 0 wm) : ℕ) : ℚ) * d) ((pms : ℚ) / 1000) d) := by
  intro env n pms dir fmt wm dm s w c d hs hc hdp hrd hen hmk hwr hdur hd0
  obtain ⟨hw1c, hw1t⟩ := warmupReads_const env d hdur (Int.toNat (max 0 wm)) w
  rw [vision_burst_eq_rest env n pms dir fmt wm dm s w c hs hc hdp]
  simp only [vision_burst_rest, hmk]
  conv_lhs => rw [List.range_eq_range']
  obtain ⟨out, w', heq, hrt, hck⟩ :=
    burstLoop_sched env s c fmt (extOf fmt) (env.expanduser dir)
      (warmupReads env (Int.toNat (max 0 wm)) w).clock (max 0 ((pms : ℚ) / 1000))
      hs hc d hdur hrd hen hwr
      (Int.toNat (max 1 (effN n pms dm))) 0
      { warmupReads env (Int.toNat (max 0 wm)) w with
        dirs := (warmupReads env (Int.toNat (max 0 wm)) w).dirs ++ [env.expanduser dir] }
      []
  have hw2t : ({ warmupReads env (Int.toNat (max 0 wm)) w with
      dirs := (warmupReads env (Int.toNat (max 0 wm)) w).dirs
        ++ [env.expanduser dir] } : World).readTimes
      = (warmupReads env (Int.toNat (max 0 wm)) w).readTimes := rfl
  have hw2c : ({ warmupReads env (Int.toNat (max 0 wm)) w with
      dirs := (warmupReads env (Int.toNat (max 0 wm)) w).dirs
        ++ [env.expanduser dir] } : World).clock
      = (warmupReads env (Int.toNat (max 0 wm)) w).clock := rfl
  have hmain : w'.readTimes
      = w.readTimes
        ++ (List.range (Int.toNat (max 0 wm))).map (fun (j : ℕ) => w.clock + (j : ℚ) * d)
        ++ (List.range (Int.toNat (max 1 (effN n pms dm)))).map
            (sched (w.clock + ((Int.toNat (max 0 wm) : ℕ) : ℚ) * d) ((pms : ℚ) / 1000) d) := by
    rw [hrt, hw2t, hw2c, hw1c, hw1t, List.append_assoc, List.append_assoc]
    congr 2
    refine List.map_congr_left ?_
    intro j _
    exact sched_eq_pre (w.clock + ((Int.toNat (max 0 wm) : ℕ) : ℚ) * d)
      ((pms : ℚ) / 1000) d hd0 j
  cases out with
  | failed e qs =>
      rw [heq]
      exact hmain
  | finished qs =>
      rw [heq]
      exact hmain

/-- Witness for C5: a two-frame burst with period 1000 ms and instantaneous
    reads is read at instants 0 and 1. -/
theorem burst_schedule_times_witness :
    (0 : ℚ) ≤ 0
    ∧ (vision_burst goodEnv 2 1000 (".") ("jpg") 0 0 sOpenG w0).2.readTimes
      = w0.readTimes
        ++ (List.range (Int.toNat (max 0 (0 : Int)))).map
            (fun (j : ℕ) => w0.clock + (j : ℚ) * 0)
        ++ (List.range (Int.toNat (max 1 (effN 2 1000 0)))).map
            (sched (w0.clock + ((Int.toNat (max 0 (0 : Int)) : ℕ) : ℚ) * 0)
              (((1000 : Int) : ℚ) / 1000) 0) :=
  ⟨le_refl 0,
   burst_schedule_times goodEnv 2 1000 (".") ("jpg") 0 0 sOpenG w0
     { id := 0, opened := true } 0 rfl rfl (fun h => absurd h (by decide)) (fun _ => rfl)
     (fun _ _ => rfl) rfl (fun _ => rfl) (fun _ => rfl) (le_refl 0)⟩

end ClaimTheorems3

end VisionMCP

